import Mathlib

/-!
Shallow embedding of the multi-stage approval workflow implemented in
`src/app.py` (Flask/SQLAlchemy).  Database tables are modelled as lists of
records; the relational store's autoincrement primary keys are modelled by a
`nextId` counter on the state (fresh, distinct ids).  Each HTTP handler that
mutates workflow state is translated to a pure function
`State → … → Except String State`; an `Except.error` result corresponds to the
handler returning an error response without committing, so the caller's state
is unchanged.
-/

namespace Workflow

/-- Row of the `users` table (`User` model, app.py). -/
structure User where
  id : Nat
  username : String
  role : String
  department : Option String
deriving Repr, DecidableEq

/-- Row of the `department_approvers` table (`DepartmentApprover` model).
The table carries a unique constraint on `(department, approver_id)`. -/
structure DepartmentApprover where
  id : Nat
  department : String
  approver_id : Nat
  is_active : Bool
deriving Repr, DecidableEq

/-- Row of the `requests` table (`Request` model). -/
structure Request where
  id : Nat
  title : String
  message : String
  department : String
  status : String
  priority : String
  submitter_id : Nat
  department_approver_id : Option Nat
  admin_approver_id : Option Nat
deriving Repr, DecidableEq

/-- Row of the `request_approvals` table (`RequestApproval` model). -/
structure RequestApproval where
  id : Nat
  request_id : Nat
  approver_id : Nat
  approval_level : String
  action : String
  comments : String
deriving Repr, DecidableEq

/-- Row of the `workflow_flow_display` table (`WorkflowFlowDisplay` model). -/
structure WorkflowFlowDisplay where
  id : Nat
  request_id : Nat
  step_number : Nat
  step_name : String
  user_id : Nat
  username : String
  role : String
  department : Option String
  status : String
deriving Repr, DecidableEq

/-- The workflow engine's database state. -/
structure DB where
  users : List User
  departmentApprovers : List DepartmentApprover
  requests : List Request
  requestApprovals : List RequestApproval
  flowDisplays : List WorkflowFlowDisplay
  nextId : Nat
deriving Repr, DecidableEq

/-- Mutating the single ORM object returned by `query.filter_by(...).first()`:
update the first list element satisfying `p`, leave everything else alone. -/
def updateFirst {α : Type} (p : α → Bool) (f : α → α) : List α → List α
  | [] => []
  | x :: xs => if p x then f x :: xs else x :: updateFirst p f xs

/-- `Request.query.get(request_id)` — primary-key lookup. -/
def findRequest (db : DB) (rid : Nat) : Option Request :=
  db.requests.find? (fun r => r.id == rid)

/-- `DepartmentApprover.query.filter_by(approver_id=u.id, department=d,
is_active=True).first()` viewed as an existence test (app.py:2048-2052). -/
def hasActiveMapping (db : DB) (u : User) (d : String) : Bool :=
  db.departmentApprovers.any
    (fun a => a.approver_id == u.id && a.department == d && a.is_active)

/-- The authorization ladder of `approve_request` (app.py:2034-2056):
admins always act at level `admin`; the `general_approver` account acts at
level `general` only while the request is `pending`; otherwise an actor with
an active department mapping for the request's department acts at level
`department` only while the request is `general_approved`. -/
def authorizedLevel (db : DB) (u : User) (req : Request) : Option String :=
  if u.role == "admin" then some "admin"
  else if u.username == "general_approver" then
    if req.status == "pending" then some "general" else none
  else if hasActiveMapping db u req.department && req.status == "general_approved" then
    some "department"
  else none

/-- `approve_request` (app.py:2026-2141).  Appends a fresh `RequestApproval`
row recording the action, then updates `Request.status`, the stage approver
columns and the matching `WorkflowFlowDisplay` row according to the
determined level. -/
def approveRequest (db : DB) (u : User) (rid : Nat) (action comments : String) :
    Except String DB :=
  match db.requests.find? (fun r => r.id == rid) with
  | none => .error "Request not found"
  | some req =>
    match authorizedLevel db u req with
    | none => .error "You are not authorized to approve this request"
    | some lvl =>
      let row : RequestApproval :=
        { id := db.nextId, request_id := rid, approver_id := u.id,
          approval_level := lvl, action := action, comments := comments }
      let db1 : DB :=
        { db with requestApprovals := db.requestApprovals ++ [row],
                  nextId := db.nextId + 1 }
      if action == "approve" then
        if lvl == "general" then
          .ok { db1 with
            requests := updateFirst (fun r => r.id == rid)
              (fun r => { r with status := "general_approved" }) db1.requests,
            flowDisplays := updateFirst
              (fun f => f.request_id == rid && f.step_number == 1 &&
                        f.step_name == "General Approver")
              (fun f => { f with status := "approved" }) db1.flowDisplays }
        else if lvl == "department" then
          .ok { db1 with
            requests := updateFirst (fun r => r.id == rid)
              (fun r => { r with status := "department_approved",
                                 department_approver_id := some u.id }) db1.requests,
            flowDisplays := updateFirst
              (fun f => f.request_id == rid && f.step_number == 2)
              (fun f => { f with status := "approved" }) db1.flowDisplays }
        else if lvl == "admin" then
          .ok { db1 with
            requests := updateFirst (fun r => r.id == rid)
              (fun r => { r with status := "admin_approved",
                                 admin_approver_id := some u.id }) db1.requests,
            flowDisplays := updateFirst
              (fun f => f.request_id == rid && f.step_number == 3 &&
                        f.step_name == "Admin Approver")
              (fun f => { f with status := "approved" }) db1.flowDisplays }
        else .ok db1
      else if action == "reject" then
        let db2 : DB :=
          { db1 with
            requests := updateFirst (fun r => r.id == rid)
              (fun r => { r with status := "rejected" }) db1.requests }
        if lvl == "general" then
          .ok { db2 with
            flowDisplays := updateFirst
              (fun f => f.request_id == rid && f.step_number == 1 &&
                        f.step_name == "General Approver")
              (fun f => { f with status := "rejected" }) db2.flowDisplays }
        else if lvl == "department" then
          .ok { db2 with
            flowDisplays := updateFirst
              (fun f => f.request_id == rid && f.step_number == 2)
              (fun f => { f with status := "rejected" }) db2.flowDisplays }
        else if lvl == "admin" then
          .ok { db2 with
            flowDisplays := updateFirst
              (fun f => f.request_id == rid && f.step_number == 3 &&
                        f.step_name == "Admin Approver")
              (fun f => { f with status := "rejected" }) db2.flowDisplays }
        else .ok db2
      else .ok db1

/-- `create_request` (app.py:1012-1156).  Resolves the active department
approver (404 if none), creates the `Request` in state `pending` with
`department_approver_id` preset to the resolved approver, then appends the
`RequestApproval` placeholder rows — the general and admin rows only when the
`general_approver` account and an admin-role account exist — and the
`WorkflowFlowDisplay` rows (step 0 `completed`, steps 1-3 `pending`). -/
def createRequest (db : DB) (u : User) (message d priority : String) :
    Except String DB :=
  if message == "" || d == "" then .error "Message and department are required"
  else
    match db.departmentApprovers.find? (fun a => a.department == d && a.is_active) with
    | none => .error ("No approver found for " ++ d ++ " department")
    | some da =>
      let n := db.nextId
      let title :=
        "Request: " ++ (if message.length > 50 then message.take 50 ++ "..." else message)
      let req : Request :=
        { id := n, title := title, message := message, department := d,
          status := "pending", priority := priority, submitter_id := u.id,
          department_approver_id := some da.approver_id, admin_approver_id := none }
      let general? := db.users.find? (fun x => x.username == "general_approver")
      let admin? := db.users.find? (fun x => x.role == "admin")
      let deptUser? := db.users.find? (fun x => x.id == da.approver_id)
      let genRows : List RequestApproval :=
        match general? with
        | some g =>
          [{ id := n + 1, request_id := n, approver_id := g.id,
             approval_level := "general", action := "pending",
             comments := "Request submitted and routed to General Approver (Step 1)" }]
        | none => []
      let deptRow : RequestApproval :=
        { id := n + 2, request_id := n, approver_id := da.approver_id,
          approval_level := "department", action := "pending",
          comments := "Request routed to " ++ d ++ " Department Approver (Step 2)" }
      let adminRows : List RequestApproval :=
        match admin? with
        | some a =>
          [{ id := n + 3, request_id := n, approver_id := a.id,
             approval_level := "admin", action := "pending",
             comments := "Request routed to Admin Approver (Step 3)" }]
        | none => []
      let flow0 : WorkflowFlowDisplay :=
        { id := n + 4, request_id := n, step_number := 0,
          step_name := "User (Submitter)", user_id := u.id, username := u.username,
          role := "user", department := u.department, status := "completed" }
      let flow1 : List WorkflowFlowDisplay :=
        match general? with
        | some g =>
          [{ id := n + 5, request_id := n, step_number := 1,
             step_name := "General Approver", user_id := g.id, username := g.username,
             role := "general_approver", department := some "General",
             status := "pending" }]
        | none => []
      let flow2 : List WorkflowFlowDisplay :=
        match deptUser? with
        | some du =>
          [{ id := n + 6, request_id := n, step_number := 2,
             step_name := d ++ " Department Approver", user_id := du.id,
             username := du.username, role := "department_approver",
             department := some d, status := "pending" }]
        | none => []
      let flow3 : List WorkflowFlowDisplay :=
        match admin? with
        | some a =>
          [{ id := n + 7, request_id := n, step_number := 3,
             step_name := "Admin Approver", user_id := a.id, username := a.username,
             role := "admin", department := some "Admin", status := "pending" }]
        | none => []
      .ok { db with
        requests := db.requests ++ [req],
        requestApprovals := db.requestApprovals ++ (genRows ++ ([deptRow] ++ adminRows)),
        flowDisplays := db.flowDisplays ++ ([flow0] ++ flow1 ++ flow2 ++ flow3),
        nextId := n + 8 }

/-- `create_department_approver` (app.py:2176-2219).  Admin-only; rejects a
department that already has an active approver; the final insert is subject
to the table's unique `(department, approver_id)` constraint, whose violation
surfaces as the handler's catch-all error. -/
def createDepartmentApprover (db : DB) (u : User) (d : String) (aid : Nat) :
    Except String DB :=
  if !(u.role == "admin") then .error "Access denied"
  else if d == "" || aid == 0 then .error "Department and approver_id are required"
  else
    match db.users.find? (fun x => x.id == aid) with
    | none => .error "User not found"
    | some _ =>
      if db.departmentApprovers.any (fun a => a.department == d && a.is_active) then
        .error ("Department " ++ d ++ " already has an approver")
      else if db.departmentApprovers.any
          (fun a => a.department == d && a.approver_id == aid) then
        .error "Failed to create approver: UNIQUE constraint failed"
      else
        .ok { db with
          departmentApprovers := db.departmentApprovers ++
            [{ id := db.nextId, department := d, approver_id := aid, is_active := true }],
          nextId := db.nextId + 1 }

/-- `delete_department_approver` (app.py:2223-2239).  Admin-only soft delete:
sets `is_active = False` on the row with the given primary key. -/
def deleteDepartmentApprover (db : DB) (u : User) (aid : Nat) : Except String DB :=
  if !(u.role == "admin") then .error "Access denied"
  else
    match db.departmentApprovers.find? (fun a => a.id == aid) with
    | none => .error "Department approver not found"
    | some _ =>
      .ok { db with
        departmentApprovers :=
          updateFirst (fun a => a.id == aid) (fun a => { a with is_active := false })
            db.departmentApprovers }

/-- `delete_request` (app.py:2243-2264).  Admin-only; bulk-deletes the
request's `RequestApproval` rows, then deletes the `Request` row itself.  No
statement touches `workflow_flow_display`. -/
def deleteRequest (db : DB) (u : User) (rid : Nat) : Except String DB :=
  if !(u.role == "admin") then .error "Access denied"
  else
    match db.requests.find? (fun r => r.id == rid) with
    | none => .error "Request not found"
    | some _ =>
      .ok { db with
        requestApprovals := db.requestApprovals.filter (fun a => !(a.request_id == rid)),
        requests := db.requests.filter (fun r => !(r.id == rid)) }

/-- Row of the `documents` table (`Document` model). -/
structure Document where
  id : Nat
  title : String
  status : String
  submitter_id : Nat
deriving Repr, DecidableEq

/-- Row of the `workflow_steps` table (`WorkflowStep` model).  The model
declares `status` values `pending, approved, rejected` (app.py:101). -/
structure WorkflowStep where
  id : Nat
  document_id : Nat
  step_order : Nat
  approver_id : Nat
  status : String
  comments : String
deriving Repr, DecidableEq

/-- Row of the `approvals` table (`Approval` model). -/
structure Approval where
  id : Nat
  document_id : Nat
  approver_id : Nat
  action : String
  comments : String
deriving Repr, DecidableEq

/-- The document engine's database state. -/
structure DocDB where
  documents : List Document
  workflowSteps : List WorkflowStep
  approvals : List Approval
  nextId : Nat
deriving Repr, DecidableEq

/-- `approve_document` (app.py:373-428).  Requires an approver/admin role and
a pending `WorkflowStep` assigned to the actor; appends an `Approval` log row;
writes the raw `action` string into the step's `status`; then, when no step of
the document remains `pending`, sets the document `rejected` if any step's
status equals the string `rejected`, and `approved` otherwise. -/
def approveDocument (ddb : DocDB) (u : User) (docId : Nat) (action comments : String) :
    Except String DocDB :=
  if !(u.role == "admin" || u.role == "approver") then
    .error "You do not have permission to approve documents"
  else
    match ddb.workflowSteps.find?
        (fun s => s.document_id == docId && s.approver_id == u.id &&
                  s.status == "pending") with
    | none => .error "You are not authorized to approve this document"
    | some _ =>
      let ddb1 : DocDB :=
        { ddb with
          approvals := ddb.approvals ++
            [{ id := ddb.nextId, document_id := docId, approver_id := u.id,
               action := action, comments := comments }],
          nextId := ddb.nextId + 1 }
      let steps2 := updateFirst
        (fun s => s.document_id == docId && s.approver_id == u.id &&
                  s.status == "pending")
        (fun s => { s with status := action, comments := comments })
        ddb1.workflowSteps
      let ddb2 : DocDB := { ddb1 with workflowSteps := steps2 }
      let pendingCount :=
        (ddb2.workflowSteps.filter
          (fun s => s.document_id == docId && s.status == "pending")).length
      if pendingCount == 0 then
        let rejectedCount :=
          (ddb2.workflowSteps.filter
            (fun s => s.document_id == docId && s.status == "rejected")).length
        if rejectedCount > 0 then
          .ok { ddb2 with
            documents := updateFirst (fun dc => dc.id == docId)
              (fun dc => { dc with status := "rejected" }) ddb2.documents }
        else
          .ok { ddb2 with
            documents := updateFirst (fun dc => dc.id == docId)
              (fun dc => { dc with status := "approved" }) ddb2.documents }
      else .ok ddb2

/-- Authorization predicate written from the spec's stage table (spec §4.1):
admins may always act; the general approver may act while the request is
`pending`; the active department approver may act while it is
`general_approved`. -/
def specAuthorized (db : DB) (u : User) (req : Request) : Bool :=
  u.role == "admin" ||
  (req.status == "pending" && u.username == "general_approver") ||
  (req.status == "general_approved" && hasActiveMapping db u req.department)

/-- One forward edge of the spec's state machine, including the jump to
`rejected` from a non-terminal state (spec §4.1 / §8). -/
def forwardEdge (s t : String) : Bool :=
  (s == "pending" && (t == "general_approved" || t == "rejected")) ||
  (s == "general_approved" && (t == "department_approved" || t == "rejected")) ||
  (s == "department_approved" && (t == "admin_approved" || t == "rejected"))

/-- Unpack a successful result, defaulting to the empty state. -/
def dbOf (e : Except String DB) : DB :=
  match e with
  | .ok d => d
  | .error _ => ⟨[], [], [], [], [], 0⟩

/-- Unpack a request lookup, defaulting to a blank request. -/
def reqOf (o : Option Request) : Request :=
  o.getD ⟨0, "", "", "", "", "", 0, none, none⟩

/-- The provisioned admin account. -/
def uAdmin : User := ⟨1, "admin", "admin", none⟩

/-- The well-known general approver account. -/
def uGeneral : User := ⟨2, "general_approver", "approver", none⟩

/-- The IT department approver account. -/
def uIT : User := ⟨3, "itapprover", "approver", some "IT"⟩

/-- A regular submitter. -/
def uSub : User := ⟨4, "alice", "user", some "Sales"⟩

/-- A regular user with no approver mapping. -/
def uStranger : User := ⟨5, "mallory", "user", none⟩

/-- A standard user population. -/
def baseUsers : List User := [uAdmin, uGeneral, uIT, uSub, uStranger]

/-- One active department approver mapping: IT → user 3. -/
def baseDAs : List DepartmentApprover := [⟨6, "IT", 3, true⟩]

/-- A request already in the terminal success state. -/
def rClosed : Request :=
  ⟨10, "Request: printer", "printer", "IT", "admin_approved", "normal", 4, some 3, none⟩

/-- State for exercising actions against a closed (`admin_approved`) request. -/
def dbC1 : DB := ⟨baseUsers, baseDAs, [rClosed], [], [], 100⟩

/-- A request already in the terminal `rejected` state. -/
def rRejected : Request :=
  ⟨10, "Request: badge", "badge", "IT", "rejected", "normal", 4, some 3, none⟩

/-- State for exercising actions against a rejected request. -/
def dbC2 : DB := ⟨baseUsers, baseDAs, [rRejected], [], [], 100⟩

/-- A freshly created (`pending`) request used for transition witnesses. -/
def rPending2 : Request :=
  ⟨11, "Request: chair", "chair", "IT", "pending", "normal", 4, some 3, none⟩

/-- State holding one pending request. -/
def dbC2w : DB := ⟨baseUsers, baseDAs, [rPending2], [], [], 100⟩

/-- Empty workflow state with the standard population. -/
def dbC3 : DB := ⟨baseUsers, baseDAs, [], [], [], 100⟩

/-- State after `create_request` for an IT request (request id 100). -/
def dbC3a : DB := dbOf (createRequest dbC3 uSub "need a new laptop" "IT" "normal")

/-- State after the general approver approves request 100. -/
def dbC3b : DB := dbOf (approveRequest dbC3a uGeneral 100 "approve" "ok")

/-- A request sitting at the department stage. -/
def rGA : Request :=
  ⟨12, "Request: desk", "desk", "IT", "general_approved", "normal", 4, some 3, none⟩

/-- State holding one request at the department stage. -/
def dbC4 : DB := ⟨baseUsers, baseDAs, [rGA], [], [], 100⟩

/-- State with no department approver mappings at all. -/
def dbC5 : DB := ⟨baseUsers, [], [], [], [], 100⟩

/-- User population without the `general_approver` account. -/
def usersNoGA : List User := [uAdmin, uIT, uSub]

/-- State whose user table lacks the well-known general approver. -/
def dbC6 : DB := ⟨usersNoGA, baseDAs, [], [], [], 100⟩

/-- Empty workflow state for the three-pending-rows witness. -/
def dbC6w : DB := ⟨baseUsers, baseDAs, [], [], [], 200⟩

/-- A document approver for the document engine. -/
def uDocApprover : User := ⟨2, "bob", "approver", none⟩

/-- A pending document with a single pending workflow step for user 2. -/
def ddbC7 : DocDB :=
  ⟨[⟨1, "Budget", "pending", 4⟩], [⟨10, 1, 1, 2, "pending", ""⟩], [], 20⟩

/-- A second approver-role user for the duplicate-approver scenario. -/
def uBeth : User := ⟨7, "beth", "approver", some "IT"⟩

/-- State with one active IT mapping (row id 6) and a candidate replacement. -/
def dbC8 : DB := ⟨[uAdmin, uIT, uBeth], [⟨6, "IT", 3, true⟩], [], [], [], 100⟩

/-- Empty workflow state for the admin-override scenario. -/
def dbC9 : DB := ⟨baseUsers, baseDAs, [], [], [], 100⟩

/-- State after `create_request` (request id 100) in the admin-override run. -/
def dbC9a : DB := dbOf (createRequest dbC9 uSub "buy a server" "IT" "high")

/-- State holding one request (id 13) with an approval row and a flow row. -/
def dbC10 : DB :=
  ⟨baseUsers, baseDAs,
   [⟨13, "Request: lamp", "lamp", "IT", "pending", "normal", 4, some 3, none⟩],
   [⟨14, 13, 2, "general", "pending", ""⟩],
   [⟨15, 13, 0, "User (Submitter)", 4, "alice", "user", none, "completed"⟩],
   100⟩

lemma find?_updateFirst {α : Type} (p : α → Bool) (f : α → α)
    (hf : ∀ a, p a = true → p (f a) = true) :
    ∀ l : List α, (updateFirst p f l).find? p = (l.find? p).map f := by
  intro l
  induction l with
  | nil => rfl
  | cons x xs ih =>
    by_cases hx : p x = true
    · simp [updateFirst, hx, List.find?_cons_of_pos, hf x hx]
    · have hx' : p x = false := by simpa using hx
      simp [updateFirst, hx', List.find?_cons_of_neg, ih]

lemma authorizedLevel_cases (db : DB) (u : User) (req : Request) (lvl : String)
    (h : authorizedLevel db u req = some lvl) :
    (lvl = "admin" ∧ u.role = "admin") ∨
    (lvl = "general" ∧ req.status = "pending") ∨
    (lvl = "department" ∧ req.status = "general_approved" ∧
      hasActiveMapping db u req.department = true) := by
  unfold authorizedLevel at h
  by_cases h1 : u.role == "admin"
  · left
    simp only [h1, if_true] at h
    have hl : lvl = "admin" := (Option.some.inj h).symm
    exact ⟨hl, by simpa using h1⟩
  · have h1' : (u.role == "admin") = false := by simpa using h1
    simp only [h1', Bool.false_eq_true, if_false] at h
    by_cases h2 : u.username == "general_approver"
    · simp only [h2, if_true] at h
      by_cases h3 : req.status == "pending"
      · right; left
        simp only [h3, if_true] at h
        have hl : lvl = "general" := (Option.some.inj h).symm
        exact ⟨hl, by simpa using h3⟩
      · have h3' : (req.status == "pending") = false := by simpa using h3
        simp [h3'] at h
    · have h2' : (u.username == "general_approver") = false := by simpa using h2
      simp only [h2', Bool.false_eq_true, if_false] at h
      by_cases h4 : hasActiveMapping db u req.department && req.status == "general_approved"
      · right; right
        simp only [h4, if_true] at h
        have hl : lvl = "department" := (Option.some.inj h).symm
        have h5 : hasActiveMapping db u req.department = true ∧
            (req.status == "general_approved") = true := by
          simpa [Bool.and_eq_true] using h4
        exact ⟨hl, by simpa using h5.2, h5.1⟩
      · have h4' : (hasActiveMapping db u req.department &&
            (req.status == "general_approved")) = false := by simpa using h4
        simp [h4'] at h

lemma approveRequest_unauthorized (db : DB) (u : User) (rid : Nat)
    (action comments : String) (req : Request)
    (hfind : findRequest db rid = some req)
    (hnone : authorizedLevel db u req = none) :
    approveRequest db u rid action comments =
      .error "You are not authorized to approve this request" := by
  unfold findRequest at hfind
  unfold approveRequest
  rw [hfind]
  simp [hnone]

lemma authorizedLevel_none_of_not_spec (db : DB) (u : User) (req : Request)
    (h : specAuthorized db u req = false) : authorizedLevel db u req = none := by
  unfold specAuthorized at h
  simp only [Bool.or_eq_false_iff, Bool.and_eq_false_iff] at h
  obtain ⟨⟨hadm, hgen⟩, hdep⟩ := h
  unfold authorizedLevel
  rw [hadm]
  simp only [Bool.false_eq_true, if_false]
  by_cases h2 : u.username == "general_approver"
  · simp only [h2, if_true]
    rcases hgen with hgen | hgen
    · rw [hgen]; simp
    · rw [hgen] at h2; simp at h2
  · have h2' : (u.username == "general_approver") = false := by simpa using h2
    simp only [h2', Bool.false_eq_true, if_false]
    rcases hdep with hdep | hdep
    · simp [hdep]
    · simp [hdep]

/-- C1 (amended): for a request in a terminal state (`admin_approved` or
`rejected`), an `approve_request` call by any non-admin actor fails with the
generic not-authorized error — there is no dedicated already-closed error in
the code — and, the call failing, no row is mutated.  (An admin's call on a
closed request succeeds instead; see the counterexample.) -/
theorem terminal_nonadmin_fails_without_mutation
    (db : DB) (u : User) (rid : Nat) (action comments : String) (req : Request)
    (hfind : findRequest db rid = some req)
    (hterm : req.status = "admin_approved" ∨ req.status = "rejected")
    (hrole : u.role ≠ "admin") :
    approveRequest db u rid action comments =
      .error "You are not authorized to approve this request" := by
  apply approveRequest_unauthorized db u rid action comments req hfind
  apply authorizedLevel_none_of_not_spec
  unfold specAuthorized
  have hr : (u.role == "admin") = false := by simpa using hrole
  rcases hterm with h | h <;> rw [h, hr] <;> rfl

/-- C1 witness: a regular user acting on the closed request 10 is turned away. -/
theorem terminal_nonadmin_fails_without_mutation_inst :
    approveRequest dbC1 uStranger 10 "approve" "" =
      .error "You are not authorized to approve this request" :=
  terminal_nonadmin_fails_without_mutation dbC1 uStranger 10 "approve" "" rClosed
    (by rfl) (Or.inl rfl) (by decide)

/-- C1 counterexample: the claim that every actor fails on a terminal request
is false — an admin's reject on the `admin_approved` request 10 succeeds,
appends an approval row and flips the status to `rejected`. -/
theorem admin_overrides_closed_request :
    (approveRequest dbC1 uAdmin 10 "reject" "").toOption.map
      (fun d => ((findRequest d 10).map (fun r => r.status), d.requestApprovals.length))
    = some (some "rejected", 1) := by rfl

/-- C2 counterexample: the claim that no operation moves the status out of a
terminal state is false — an admin's approve on the `rejected` request 10
succeeds and sets the status to `admin_approved`. -/
theorem rejected_to_admin_approved :
    (approveRequest dbC2 uAdmin 10 "approve" "").toOption.map
      (fun d => (findRequest d 10).map (fun r => r.status))
    = some (some "admin_approved") := by rfl

/-- C3 (amended): every successful `approve_request` call appends exactly one
new `RequestApproval` row recording the action and leaves every pre-existing
row — in particular the `pending` placeholder rows written at creation time —
unchanged; no row is ever overwritten in place, so a completed stage carries
both its placeholder and its action row. -/
theorem action_appends_single_approval_row
    (db db' : DB) (u : User) (rid : Nat) (action comments : String)
    (hok : approveRequest db u rid action comments = .ok db') :
    ∃ lvl, db'.requestApprovals =
      db.requestApprovals ++
        [{ id := db.nextId, request_id := rid, approver_id := u.id,
           approval_level := lvl, action := action, comments := comments }] := by
  unfold approveRequest at hok
  repeat' split at hok
  all_goals first
  | exact Except.noConfusion hok
  | (cases hok; exact ⟨_, rfl⟩)

/-- C3 witness: the general approver's approve on request 100 appends one row. -/
theorem action_appends_single_approval_row_inst :
    ∃ lvl, dbC3b.requestApprovals =
      dbC3a.requestApprovals ++
        [{ id := dbC3a.nextId, request_id := 100, approver_id := uGeneral.id,
           approval_level := lvl, action := "approve", comments := "ok" }] :=
  action_appends_single_approval_row dbC3a dbC3b uGeneral 100 "approve" "ok" (by rfl)

/-- C3 counterexample: after the general stage of request 100 completes, the
`general` level carries two rows — the untouched `pending` placeholder plus
the appended `approve` row — refuting the exactly-one-row-per-stage claim. -/
theorem stage_rows_accumulate :
    (dbC3b.requestApprovals.filter
      (fun a => a.request_id == 100 && a.approval_level == "general")).map
        (fun a => a.action) = ["pending", "approve"] := by rfl

/-- C5: `create_request` for a department with no active `DepartmentApprover`
fails with the no-approver error before inserting anything, so no `Request`,
`RequestApproval` or `WorkflowFlowDisplay` row is created. -/
theorem create_request_no_approver_fails
    (db : DB) (u : User) (msg d p : String)
    (hmsg : msg ≠ "") (hd : d ≠ "")
    (hnone : db.departmentApprovers.find?
      (fun a => a.department == d && a.is_active) = none) :
    createRequest db u msg d p =
      .error ("No approver found for " ++ d ++ " department") := by
  unfold createRequest
  have h1 : (msg == "") = false := by simpa using hmsg
  have h2 : (d == "") = false := by simpa using hd
  rw [h1, h2]
  simp [hnone]

/-- C5 witness: creating an HR request in a state with no approver mappings
fails with the no-approver error. -/
theorem create_request_no_approver_fails_inst :
    createRequest dbC5 uSub "hi" "HR" "normal" =
      .error "No approver found for HR department" :=
  create_request_no_approver_fails dbC5 uSub "hi" "HR" "normal"
    (by decide) (by decide) (by rfl)

/-- C7 (code bug): the only pending step of document 1 is closed with a
reject action, yet the document's status becomes `approved` — the handler
stores the raw action string `reject` in the step, so its query counting
steps with status `rejected` matches nothing, contradicting the model's own
declared status vocabulary and the spec. -/
theorem document_reject_yields_approved :
    (approveDocument ddbC7 uDocApprover 1 "reject" "over budget").toOption.map
      (fun d => (d.documents.map (fun x => x.status),
                 d.workflowSteps.map (fun s => s.status)))
    = some (["approved"], ["reject"]) := by rfl

/-- C10: `delete_request` removes the `Request` row and all of its
`RequestApproval` rows but leaves the `workflow_flow_display` table — and
every other table — untouched, so the flow rows survive as orphans still
naming the deleted request id. -/
theorem delete_request_preserves_flow_display
    (db : DB) (u : User) (rid : Nat) (req : Request)
    (hrole : u.role = "admin") (hfind : findRequest db rid = some req) :
    ∃ db', deleteRequest db u rid = .ok db' ∧
      db'.flowDisplays = db.flowDisplays ∧
      db'.users = db.users ∧
      db'.departmentApprovers = db.departmentApprovers ∧
      db'.requests = db.requests.filter (fun r => !(r.id == rid)) ∧
      db'.requestApprovals = db.requestApprovals.filter (fun a => !(a.request_id == rid)) := by
  unfold findRequest at hfind
  have h1 : (u.role == "admin") = true := by simpa using hrole
  refine ⟨{ db with
    requestApprovals := db.requestApprovals.filter (fun a => !(a.request_id == rid)),
    requests := db.requests.filter (fun r => !(r.id == rid)) }, ?_, rfl, rfl, rfl, rfl, rfl⟩
  unfold deleteRequest
  rw [h1]
  simp [hfind]

lemma status_after_update (db : DB) (rid : Nat) (req req' : Request)
    (f : Request → Request) (hid : ∀ r, (f r).id = r.id)
    (hfind : List.find? (fun r => r.id == rid) db.requests = some req)
    (hfind' : List.find? (fun r => r.id == rid)
      (updateFirst (fun r => r.id == rid) f db.requests) = some req') :
    req' = f req := by
  have hp : ∀ a : Request, ((fun r : Request => r.id == rid) a) = true →
      ((fun r : Request => r.id == rid) (f a)) = true := by
    intro a ha
    simpa [hid] using ha
  rw [find?_updateFirst (fun r : Request => r.id == rid) f hp] at hfind'
  rw [hfind] at hfind'
  simp only [Option.map_some'] at hfind'
  exact (Option.some.inj hfind').symm

/-- C2 (amended): a successful `approve_request` either leaves the status
unchanged (actions other than approve/reject), moves it along a forward edge
of the `pending → general_approved → department_approved → admin_approved`
chain or to `rejected` from a non-terminal state, or — when the actor is an
admin — sets it to `admin_approved`/`rejected` from any state whatsoever,
including out of the terminal states. -/
theorem status_transitions_characterized
    (db db' : DB) (u : User) (rid : Nat) (action comments : String)
    (req req' : Request)
    (hfind : findRequest db rid = some req)
    (hok : approveRequest db u rid action comments = .ok db')
    (hfind' : findRequest db' rid = some req') :
    req'.status = req.status ∨ forwardEdge req.status req'.status = true ∨
      (u.role = "admin" ∧ (req'.status = "admin_approved" ∨ req'.status = "rejected")) := by
  unfold findRequest at hfind hfind'
  unfold approveRequest at hok
  split at hok
  · exact Except.noConfusion hok
  · rename_i r heq
    rw [hfind] at heq
    injection heq with hreq
    subst hreq
    split at hok
    · exact Except.noConfusion hok
    · rename_i lvl heq2
      have hc := authorizedLevel_cases db u req lvl heq2
      split at hok
      · -- action == "approve"
        split at hok
        · -- lvl == "general"
          rename_i hG
          have hlv : lvl = "general" := eq_of_beq hG
          subst hlv
          have hst : req.status = "pending" := by
            rcases hc with ⟨h, _⟩ | ⟨_, hst⟩ | ⟨h, _, _⟩
            · exact absurd h (by decide)
            · exact hst
            · exact absurd h (by decide)
          cases hok
          have h9 := status_after_update db rid req req'
            (fun r => { r with status := "general_approved" }) (fun r => rfl) hfind hfind'
          right; left
          rw [h9, hst]
          rfl
        · split at hok
          · -- lvl == "department"
            rename_i hD
            have hlv : lvl = "department" := eq_of_beq hD
            subst hlv
            have hst : req.status = "general_approved" := by
              rcases hc with ⟨h, _⟩ | ⟨h, _⟩ | ⟨_, hst, _⟩
              · exact absurd h (by decide)
              · exact absurd h (by decide)
              · exact hst
            cases hok
            have h9 := status_after_update db rid req req'
              (fun r => { r with status := "department_approved",
                                 department_approver_id := some u.id })
              (fun r => rfl) hfind hfind'
            right; left
            rw [h9, hst]
            rfl
          · split at hok
            · -- lvl == "admin"
              rename_i hAd
              have hlv : lvl = "admin" := eq_of_beq hAd
              subst hlv
              have hadm : u.role = "admin" := by
                rcases hc with ⟨_, h⟩ | ⟨h, _⟩ | ⟨h, _, _⟩
                · exact h
                · exact absurd h (by decide)
                · exact absurd h (by decide)
              cases hok
              have h9 := status_after_update db rid req req'
                (fun r => { r with status := "admin_approved",
                                   admin_approver_id := some u.id })
                (fun r => rfl) hfind hfind'
              right; right
              exact ⟨hadm, Or.inl (by rw [h9])⟩
            · -- no level matches: impossible by authorizedLevel_cases
              rcases hc with ⟨h, _⟩ | ⟨h, _⟩ | ⟨h, _, _⟩ <;> subst h <;> simp_all
      · -- action is not "approve"
        split at hok
        · -- action == "reject"
          split at hok
          · rename_i hG
            have hlv : lvl = "general" := eq_of_beq hG
            subst hlv
            have hst : req.status = "pending" := by
              rcases hc with ⟨h, _⟩ | ⟨_, hst⟩ | ⟨h, _, _⟩
              · exact absurd h (by decide)
              · exact hst
              · exact absurd h (by decide)
            cases hok
            have h9 := status_after_update db rid req req'
              (fun r => { r with status := "rejected" }) (fun r => rfl) hfind hfind'
            right; left
            rw [h9, hst]
            rfl
          · split at hok
            · rename_i hD
              have hlv : lvl = "department" := eq_of_beq hD
              subst hlv
              have hst : req.status = "general_approved" := by
                rcases hc with ⟨h, _⟩ | ⟨h, _⟩ | ⟨_, hst, _⟩
                · exact absurd h (by decide)
                · exact absurd h (by decide)
                · exact hst
              cases hok
              have h9 := status_after_update db rid req req'
                (fun r => { r with status := "rejected" }) (fun r => rfl) hfind hfind'
              right; left
              rw [h9, hst]
              rfl
            · split at hok
              · rename_i hAd
                have hlv : lvl = "admin" := eq_of_beq hAd
                subst hlv
                have hadm : u.role = "admin" := by
                  rcases hc with ⟨_, h⟩ | ⟨h, _⟩ | ⟨h, _, _⟩
                  · exact h
                  · exact absurd h (by decide)
                  · exact absurd h (by decide)
                cases hok
                have h9 := status_after_update db rid req req'
                  (fun r => { r with status := "rejected" }) (fun r => rfl) hfind hfind'
                right; right
                exact ⟨hadm, Or.inr (by rw [h9])⟩
              · rcases hc with ⟨h, _⟩ | ⟨h, _⟩ | ⟨h, _, _⟩ <;> subst h <;> simp_all
        · -- any other action string: only the log row is appended
          cases hok
          have h0 : List.find? (fun r => r.id == rid) db.requests = some req' := hfind'
          have hr : req = req' := Option.some.inj (hfind.symm.trans h0)
          exact Or.inl (by rw [hr])

/-- C2 witness: the general approver's approve on pending request 11 takes a
forward edge of the state machine. -/
theorem status_transitions_characterized_inst :
    (reqOf (findRequest (dbOf (approveRequest dbC2w uGeneral 11 "approve" "")) 11)).status
        = rPending2.status ∨
    forwardEdge rPending2.status
        (reqOf (findRequest (dbOf (approveRequest dbC2w uGeneral 11 "approve" "")) 11)).status
      = true ∨
    (uGeneral.role = "admin" ∧
      ((reqOf (findRequest (dbOf (approveRequest dbC2w uGeneral 11 "approve" "")) 11)).status
          = "admin_approved" ∨
       (reqOf (findRequest (dbOf (approveRequest dbC2w uGeneral 11 "approve" "")) 11)).status
          = "rejected")) :=
  status_transitions_characterized dbC2w
    (dbOf (approveRequest dbC2w uGeneral 11 "approve" "")) uGeneral 11 "approve" ""
    rPending2 (reqOf (findRequest (dbOf (approveRequest dbC2w uGeneral 11 "approve" "")) 11))
    (by rfl) (by rfl) (by rfl)

/-- C4: at the department stage (`status = general_approved`), a non-admin
actor's call succeeds only if the actor holds an active `DepartmentApprover`
mapping for the request's department; and whenever the actor is not
authorized for the current stage (per the spec's stage table), the call fails
with the not-authorized error and, failing, mutates nothing. -/
theorem department_stage_authorization
    (db : DB) (u : User) (rid : Nat) (action comments : String) (req : Request)
    (hfind : findRequest db rid = some req) :
    ((req.status = "general_approved" → u.role ≠ "admin" →
      (approveRequest db u rid action comments).toOption.isSome = true →
      hasActiveMapping db u req.department = true)
     ∧ (specAuthorized db u req = false →
        approveRequest db u rid action comments =
          .error "You are not authorized to approve this request")) := by
  constructor
  · intro hst hrole hok
    cases hal : authorizedLevel db u req with
    | none =>
      rw [approveRequest_unauthorized db u rid action comments req hfind hal] at hok
      exact Bool.noConfusion hok
    | some lvl =>
      have hc := authorizedLevel_cases db u req lvl hal
      rcases hc with ⟨_, h⟩ | ⟨_, h⟩ | ⟨_, _, hmap⟩
      · exact absurd h hrole
      · rw [hst] at h
        exact absurd h (by decide)
      · exact hmap
  · intro hspec
    exact approveRequest_unauthorized db u rid action comments req hfind
      (authorizedLevel_none_of_not_spec db u req hspec)

/-- C4 witness: a mapping-less user is turned away from request 12 at the
department stage, while the IT approver is recognized as authorized. -/
theorem department_stage_authorization_inst :
    approveRequest dbC4 uStranger 12 "approve" "" =
      .error "You are not authorized to approve this request"
    ∧ hasActiveMapping dbC4 uIT "IT" = true := by
  constructor
  · exact (department_stage_authorization dbC4 uStranger 12 "approve" "" rGA (by rfl)).2
      (by rfl)
  · exact (department_stage_authorization dbC4 uIT 12 "approve" "" rGA (by rfl)).1
      rfl (by decide) (by rfl)

/-- C6 (amended): `create_request` does not fail when the well-known
`general_approver` account or an admin-role account is absent — it silently
omits the corresponding placeholder rows; when both accounts exist it appends
exactly three `RequestApproval` rows, `general`, `department` and `admin` in
that order, all with `action = pending`. -/
theorem create_request_three_pending_rows
    (db : DB) (u : User) (msg d p : String) (da : DepartmentApprover) (g adm : User)
    (hmsg : msg ≠ "") (hd : d ≠ "")
    (hda : db.departmentApprovers.find?
      (fun a => a.department == d && a.is_active) = some da)
    (hg : db.users.find? (fun x => x.username == "general_approver") = some g)
    (hadm : db.users.find? (fun x => x.role == "admin") = some adm) :
    (createRequest db u msg d p).toOption.map
      (fun db' => db'.requestApprovals.map (fun a => (a.approval_level, a.action)))
    = some (db.requestApprovals.map (fun a => (a.approval_level, a.action)) ++
        [("general", "pending"), ("department", "pending"), ("admin", "pending")]) := by
  have h1 : (msg == "") = false := by simpa using hmsg
  have h2 : (d == "") = false := by simpa using hd
  unfold createRequest
  rw [h1, h2]
  simp only [hda, hg, hadm]
  simp [Except.toOption, List.map_append]

/-- C6 witness: with all well-known accounts present, creating an IT request
appends exactly the three pending placeholder rows. -/
theorem create_request_three_pending_rows_inst :
    (createRequest dbC6w uSub "need a new laptop" "IT" "normal").toOption.map
      (fun db' => db'.requestApprovals.map (fun a => (a.approval_level, a.action)))
    = some (dbC6w.requestApprovals.map (fun a => (a.approval_level, a.action)) ++
        [("general", "pending"), ("department", "pending"), ("admin", "pending")]) :=
  create_request_three_pending_rows dbC6w uSub "need a new laptop" "IT" "normal"
    ⟨6, "IT", 3, true⟩ uGeneral uAdmin (by decide) (by decide) (by rfl) (by rfl) (by rfl)

/-- C6 counterexample: with the `general_approver` account absent the claim
demands a `ConfigurationError`, but creation succeeds and silently writes
only the department and admin placeholder rows. -/
theorem create_request_missing_general_ok :
    (createRequest dbC6 uSub "hello" "IT" "normal").toOption.map
      (fun d => d.requestApprovals.map (fun a => (a.approval_level, a.action)))
    = some [("department", "pending"), ("admin", "pending")] := by rfl

/-- C8: creating a `DepartmentApprover` for a department that already has an
active one fails with the duplicate error; once that mapping is deactivated
(and no other active mapping or conflicting unique-key row for the pair
exists), creating a new active approver for the department succeeds. -/
theorem duplicate_department_approver
    (db : DB) (u : User) (d : String) (bid : Nat) (m : DepartmentApprover)
    (hrole : u.role = "admin") (hd : d ≠ "") (hbid : bid ≠ 0)
    (hbuser : (db.users.find? (fun x => x.id == bid)).isSome = true)
    (hactive : db.departmentApprovers.find?
      (fun a => a.department == d && a.is_active) = some m) :
    (createDepartmentApprover db u d bid =
      .error ("Department " ++ d ++ " already has an approver"))
    ∧ ∀ db2, deleteDepartmentApprover db u m.id = .ok db2 →
        db2.departmentApprovers.all
          (fun a => !(a.department == d && a.is_active)) = true →
        (db2.users.find? (fun x => x.id == bid)).isSome = true →
        db2.departmentApprovers.all
          (fun a => !(a.department == d && a.approver_id == bid)) = true →
        (createDepartmentApprover db2 u d bid).toOption.isSome = true := by
  have h1 : (u.role == "admin") = true := by simpa using hrole
  have h2 : (d == "") = false := by simpa using hd
  have h3 : (bid == 0) = false := by simpa using hbid
  constructor
  · obtain ⟨w, hw⟩ := Option.isSome_iff_exists.mp hbuser
    have hany : db.departmentApprovers.any
        (fun a => a.department == d && a.is_active) = true := by
      rw [List.any_eq_true]
      refine ⟨m, List.mem_of_find?_eq_some hactive, ?_⟩
      have h5 := List.find?_some hactive
      simpa using h5
    unfold createDepartmentApprover
    simp [h1, h2, h3, hw, hany]
  · intro db2 hdel hnoact hbuser2 hnopair
    obtain ⟨w2, hw2⟩ := Option.isSome_iff_exists.mp hbuser2
    have hany1 : db2.departmentApprovers.any
        (fun a => a.department == d && a.is_active) = false := by
      rw [List.any_eq_false]
      intro x hx hpx
      have h6 := (List.all_eq_true.mp hnoact) x hx
      rw [hpx] at h6
      exact Bool.noConfusion h6
    have hany2 : db2.departmentApprovers.any
        (fun a => a.department == d && a.approver_id == bid) = false := by
      rw [List.any_eq_false]
      intro x hx hpx
      have h6 := (List.all_eq_true.mp hnopair) x hx
      rw [hpx] at h6
      exact Bool.noConfusion h6
    unfold createDepartmentApprover
    simp [h1, h2, h3, hw2, hany1, hany2, Except.toOption]

/-- C8 witness: with IT already mapped to user 3, mapping user 7 fails; after
deactivating row 6, mapping user 7 succeeds. -/
theorem duplicate_department_approver_inst :
    (createDepartmentApprover dbC8 uAdmin "IT" 7 =
      .error "Department IT already has an approver")
    ∧ (createDepartmentApprover (dbOf (deleteDepartmentApprover dbC8 uAdmin 6))
        uAdmin "IT" 7).toOption.isSome = true := by
  have h := duplicate_department_approver dbC8 uAdmin "IT" 7 ⟨6, "IT", 3, true⟩
    rfl (by decide) (by decide) (by rfl) (by rfl)
  refine ⟨h.1, ?_⟩
  exact h.2 (dbOf (deleteDepartmentApprover dbC8 uAdmin 6))
    (by rfl) (by rfl) (by rfl) (by rfl)

/-- C9 (amended): an approve by an admin succeeds at any request status with
level `admin`, sets the status directly to `admin_approved`, records the
admin in `admin_approver_id`, appends exactly one admin-level approval row —
touching neither the general nor the department stage — and leaves
`department_approver_id` exactly as it was (note `create_request` presets it
to the resolved department approver, so it is non-null even when the
department stage never ran; see the counterexample). -/
theorem admin_approve_any_status
    (db : DB) (u : User) (rid : Nat) (c : String) (req : Request)
    (hrole : u.role = "admin") (hfind : findRequest db rid = some req) :
    ∃ db', approveRequest db u rid "approve" c = .ok db' ∧
      findRequest db' rid =
        some { req with status := "admin_approved", admin_approver_id := some u.id } ∧
      db'.requestApprovals = db.requestApprovals ++
        [{ id := db.nextId, request_id := rid, approver_id := u.id,
           approval_level := "admin", action := "approve", comments := c }] := by
  unfold findRequest at hfind
  have h1 : (u.role == "admin") = true := by simpa using hrole
  have hal : authorizedLevel db u req = some "admin" := by
    unfold authorizedLevel
    rw [h1]
    rfl
  refine ⟨{ db with
      requestApprovals := db.requestApprovals ++
        [{ id := db.nextId, request_id := rid, approver_id := u.id,
           approval_level := "admin", action := "approve", comments := c }],
      nextId := db.nextId + 1,
      requests := updateFirst (fun r => r.id == rid)
        (fun r => { r with status := "admin_approved", admin_approver_id := some u.id })
        db.requests,
      flowDisplays := updateFirst
        (fun f => f.request_id == rid && f.step_number == 3 &&
                  f.step_name == "Admin Approver")
        (fun f => { f with status := "approved" }) db.flowDisplays }, ?_, ?_, rfl⟩
  · unfold approveRequest
    rw [hfind]
    simp [hal]
  · show List.find? (fun r => r.id == rid)
      (updateFirst (fun r => r.id == rid)
        (fun r => { r with status := "admin_approved", admin_approver_id := some u.id })
        db.requests) = some _
    have hp : ∀ a : Request, ((fun r : Request => r.id == rid) a) = true →
        ((fun r : Request => r.id == rid)
          ((fun r : Request =>
            { r with status := "admin_approved", admin_approver_id := some u.id }) a))
          = true := fun a ha => ha
    rw [find?_updateFirst _ _ hp, hfind]
    rfl

/-- C9 witness: the admin approves the freshly created request 100 outright. -/
theorem admin_approve_any_status_inst :
    ∃ db', approveRequest dbC9a uAdmin 100 "approve" "go" = .ok db' ∧
      findRequest db' 100 =
        some { reqOf (findRequest dbC9a 100) with
               status := "admin_approved", admin_approver_id := some uAdmin.id } ∧
      db'.requestApprovals = dbC9a.requestApprovals ++
        [{ id := dbC9a.nextId, request_id := 100, approver_id := uAdmin.id,
           approval_level := "admin", action := "approve", comments := "go" }] :=
  admin_approve_any_status dbC9a uAdmin 100 "go" (reqOf (findRequest dbC9a 100))
    rfl (by rfl)

/-- C9 counterexample: after `create_request` and a direct admin approve, the
request is `admin_approved` yet `department_approver_id` is already set (to
user 3) although the department stage never ran — refuting the claim that it
remains unset. -/
theorem admin_approve_presets_department_approver :
    (approveRequest dbC9a uAdmin 100 "approve" "").toOption.map
      (fun d => (findRequest d 100).map
        (fun r => (r.status, r.department_approver_id)))
    = some (some ("admin_approved", some 3)) := by rfl

/-- C10 witness: deleting request 13 keeps its flow-display row. -/
theorem delete_request_preserves_flow_display_inst :
    ∃ db', deleteRequest dbC10 uAdmin 13 = .ok db' ∧
      db'.flowDisplays = dbC10.flowDisplays ∧
      db'.users = dbC10.users ∧
      db'.departmentApprovers = dbC10.departmentApprovers ∧
      db'.requests = dbC10.requests.filter (fun r => !(r.id == 13)) ∧
      db'.requestApprovals = dbC10.requestApprovals.filter (fun a => !(a.request_id == 13)) :=
  delete_request_preserves_flow_display dbC10 uAdmin 13
    ⟨13, "Request: lamp", "lamp", "IT", "pending", "normal", 4, some 3, none⟩
    rfl (by rfl)

end Workflow
